import Mathlib

/-!
Verification of the XP/leveling engine of a chat-community bot (src/Bot.py).

The Python source is shallowly embedded: Python ints are `Int` (arbitrary
precision in both), the SQLite table `xp_data` is a partial map from
(user_id, guild_id) keys to records, the in-memory `cooldowns` dict is a total
map defaulting to 0 (mirroring `cooldowns.get(key, 0)`), and each `async`
function's store interaction is explicit state passing.
-/

/-- Config constant `LEVEL_MULTIPLIER = 100` (Bot.py line 23). -/
def LEVEL_MULTIPLIER : Int := 100

/-- Config constant `XP_COOLDOWN = 60` (Bot.py line 24). -/
def XP_COOLDOWN : Int := 60

/-- Config constant `REACTION_COOLDOWN = 90` (Bot.py line 25). -/
def REACTION_COOLDOWN : Int := 90

/-- A row of the `xp_data` table restricted to its value fields:
`{"xp": ..., "level": ...}` as returned by `get_user_data`. -/
structure Progress where
  xp : Int
  level : Int
deriving DecidableEq, Repr

/-- `xp_for_next_level(level) = level * LEVEL_MULTIPLIER` (Bot.py lines 102-104). -/
def xp_for_next_level (level : Int) : Int :=
  level * LEVEL_MULTIPLIER

/-- The `while data["xp"] >= next_level` loop of `add_xp_manual`
(Bot.py lines 163-167): subtract the old threshold, increment the level,
set the `leveled_up` flag, recompute the threshold.  The termination measure
decreases by exactly 100 on every iteration of the loop. -/
def rollover (xp level : Int) (leveled_up : Bool) : Int × Int × Bool :=
  if h : xp_for_next_level level ≤ xp then
    rollover (xp - xp_for_next_level level) (level + 1) true
  else
    (xp, level, leveled_up)
termination_by (xp + 50 * ((1 - level) * (2 - level))).toNat
decreasing_by
  simp_wf
  have hm : xp_for_next_level level = level * 100 := rfl
  rw [hm] at h ⊢
  have hsq : 0 ≤ level * (level - 1) := by
    rcases le_or_lt level 0 with hl | hl
    · have h1 : level - 1 ≤ 0 := by omega
      have h2 : (0:Int) ≤ -level * -(level - 1) :=
        mul_nonneg (neg_nonneg.mpr hl) (neg_nonneg.mpr h1)
      calc (0:Int) ≤ -level * -(level - 1) := h2
        _ = level * (level - 1) := by ring
    · exact mul_nonneg (by omega) (by omega)
  constructor
  · nlinarith [h, hsq]
  · nlinarith [h, hsq]

/-- The pure computation of `add_xp_manual` (Bot.py lines 153-170):
add the amount, then run the rollover loop to convergence.  Returns the new
record and the `leveled_up` flag. -/
def add_xp_manual_pure (data : Progress) (amount : Int) : Progress × Bool :=
  (⟨(rollover (data.xp + amount) data.level false).1,
    (rollover (data.xp + amount) data.level false).2.1⟩,
   (rollover (data.xp + amount) data.level false).2.2)

/-- The pure computation of `add_xp` (Bot.py lines 117-133): add the amount,
then a single `if data["xp"] >= next_level` check — at most one level is
gained per call on this event path. -/
def add_xp_pure (data : Progress) (amount : Int) : Progress × Bool :=
  if xp_for_next_level data.level ≤ data.xp + amount then
    (⟨data.xp + amount - xp_for_next_level data.level, data.level + 1⟩, true)
  else
    (⟨data.xp + amount, data.level⟩, false)

/-- The pure computation of `remove_user_xp` (Bot.py lines 172-177):
`data["xp"] = max(0, data["xp"] - amount)`, level untouched. -/
def remove_user_xp_pure (data : Progress) (amount : Int) : Progress :=
  ⟨max 0 (data.xp - amount), data.level⟩

/-- The `xp_data` table: a partial map from (user_id, guild_id) to a record. -/
abbrev Store := Int × Int → Option Progress

/-- `get_user_data` (Bot.py lines 106-112): SELECT the row; if absent,
INSERT the default `{xp: 0, level: 1}` row and return the default.
Returns the record together with the possibly-extended store. -/
def get_user_data (s : Store) (user_id guild_id : Int) : Progress × Store :=
  match s (user_id, guild_id) with
  | some row => (row, s)
  | none =>
      (⟨0, 1⟩, fun k => if k = (user_id, guild_id) then some ⟨0, 1⟩ else s k)

/-- `update_user_data` (Bot.py lines 114-115): SQL `UPDATE xp_data SET
xp = ?, level = ? WHERE user_id = ? AND guild_id = ?` — a no-op on an
absent row, an overwrite on a present one. -/
def update_user_data (s : Store) (user_id guild_id xp level : Int) : Store :=
  fun k =>
    if k = (user_id, guild_id) then
      match s k with
      | some _ => some ⟨xp, level⟩
      | none => none
    else s k

/-- `remove_user_xp` (Bot.py lines 172-177): read the record, clamp the
subtraction at 0, write back with the level unchanged; returns the new
store and the new xp value the function returns. -/
def remove_user_xp (s : Store) (user_id guild_id amount : Int) : Store × Int :=
  (update_user_data (get_user_data s user_id guild_id).2 user_id guild_id
      (remove_user_xp_pure (get_user_data s user_id guild_id).1 amount).xp
      (remove_user_xp_pure (get_user_data s user_id guild_id).1 amount).level,
   (remove_user_xp_pure (get_user_data s user_id guild_id).1 amount).xp)

/-- `reset_user_xp` (Bot.py lines 179-180): SQL `DELETE FROM xp_data WHERE
user_id = ? AND guild_id = ?` — the record is removed outright. -/
def reset_user_xp (s : Store) (user_id guild_id : Int) : Store :=
  fun k => if k = (user_id, guild_id) then none else s k

/-- `add_xp_manual` (Bot.py lines 153-170): read the record, add the amount,
run the rollover `while` loop, write back.  Returns the new store, the
`leveled_up` flag and the new level, mirroring the Python return value. -/
def add_xp_manual (s : Store) (user_id guild_id amount : Int) : Store × Bool × Int :=
  (update_user_data (get_user_data s user_id guild_id).2 user_id guild_id
      (add_xp_manual_pure (get_user_data s user_id guild_id).1 amount).1.xp
      (add_xp_manual_pure (get_user_data s user_id guild_id).1 amount).1.level,
   (add_xp_manual_pure (get_user_data s user_id guild_id).1 amount).2,
   (add_xp_manual_pure (get_user_data s user_id guild_id).1 amount).1.level)

/-- The body of the `!addxp` admin command `addxp_prefix` (Bot.py lines
478-483) after its permission gate: it passes the user-supplied `amount`
to `add_xp_manual` with no check that the amount is non-negative. -/
def addxp_command (s : Store) (user_id guild_id amount : Int) : Store × Bool × Int :=
  add_xp_manual s user_id guild_id amount

/-- The body of the `!removexp` admin command `removexp_prefix` (Bot.py
lines 493-498) after its permission gate: it calls `reset_user_xp`,
deleting the row, and never uses its `amount` argument. -/
def removexp_command (s : Store) (user_id guild_id : Int) (_amount : Int) : Store :=
  reset_user_xp s user_id guild_id

/-- A full row of `xp_data` for one guild, as fetched by the leaderboard
query `SELECT user_id, xp, level FROM xp_data WHERE guild_id = ?`. -/
structure Rec where
  user_id : Int
  xp : Int
  level : Int
deriving DecidableEq, Repr

/-- The comparator of SQL `ORDER BY level DESC, xp DESC` (Bot.py lines 136
and 366): `a` sorts no later than `b` iff `a` has the higher level, or equal
levels and `a` has at least the xp of `b`. -/
def recLE (a b : Rec) : Bool :=
  decide (b.level < a.level) || (decide (a.level = b.level) && decide (b.xp ≤ a.xp))

/-- Insertion step of the `ORDER BY` sort. -/
def insertRec (a : Rec) : List Rec → List Rec
  | [] => [a]
  | b :: bs => if recLE a b then a :: b :: bs else b :: insertRec a bs

/-- The `ORDER BY level DESC, xp DESC` sort over a guild's rows. -/
def sortRecs : List Rec → List Rec
  | [] => []
  | a :: rest => insertRec a (sortRecs rest)

/-- `get_top_user_id` (Bot.py lines 135-137): `SELECT user_id FROM xp_data
WHERE guild_id = ? ORDER BY level DESC, xp DESC LIMIT 1` — the first row of
the ordered result, if any. -/
def get_top_user_id (rows : List Rec) : Option Int :=
  (sortRecs rows).head?.map Rec.user_id

/-- The leaderboard query of `leaderboard_prefix` (Bot.py lines 364-367):
`ORDER BY level DESC, xp DESC LIMIT 10`. -/
def leaderboard_query (rows : List Rec) : List Rec :=
  (sortRecs rows).take 10

/-- An external role mutation issued by the top-rank tracker:
`remove_roles` on the previous leader or `add_roles` on the new one. -/
inductive RoleAction
  | removeRole (uid : Int)
  | addRole (uid : Int)
deriving DecidableEq, Repr

/-- The external world `check_top_user_change` consults for one guild,
fixed across a call: the guild's `xp_data` rows in storage order, the
`reward_roles` binding, `guild.get_role` success, `guild.get_member`
success, and `role in member.roles`. -/
structure TopEnv where
  records : List Rec
  rewardRole : Option Int
  rolePresent : Int → Bool
  isMember : Int → Bool
  hasRole : Int → Bool

/-- `check_top_user_change` (Bot.py lines 193-237) for one guild, with the
`last_top_user` cache entry passed in and returned explicitly and the role
mutations it issues collected in a list.  Python truthiness tests
(`if not top_id`, `if not role_id`, `if prev`) are modelled as the value
being absent or 0.  The announcement send is not a role mutation and is
omitted. -/
def check_top_user_change (env : TopEnv) (cache : Option Int) :
    Option Int × List RoleAction :=
  match get_top_user_id env.records with
  | none => (cache, [])
  | some top_id =>
    if top_id = 0 then (cache, [])
    else if cache = some top_id then (cache, [])
    else
      match env.rewardRole with
      | none => (some top_id, [])
      | some role_id =>
        if role_id = 0 then (some top_id, [])
        else if env.rolePresent role_id then
          ((some top_id),
            (match cache with
             | none => []
             | some prev =>
                 if prev = 0 then []
                 else if env.isMember prev && env.hasRole prev then
                   [RoleAction.removeRole prev]
                 else []) ++
            (if env.isMember top_id then [RoleAction.addRole top_id] else []))
        else (some top_id, [])

/-- A subject key of the in-memory `cooldowns` dict.  The message path keys
on the bare integer `user_id` (Bot.py line 280); the reaction path keys on
the string `"react_" + str(user_id)` for both the reactor (line 306) and
the message author (line 321).  A Python int key and a Python str key are
distinct dict keys, which the two constructors capture. -/
inductive SubjectKey
  | plain (uid : Int)
  | react (uid : Int)
deriving DecidableEq, Repr

/-- The `cooldowns` dict read through `cooldowns.get(key, 0)`: a total map
defaulting to 0. -/
abbrev CoolTable := Int × SubjectKey → Int

/-- `cooldowns[key] = now`. -/
def recordCooldown (t : CoolTable) (k : Int × SubjectKey) (now : Int) : CoolTable :=
  fun k' => if k' = k then now else t k'

/-- The message-path cooldown gate of `on_message` (Bot.py lines 279-282):
`now - last_time >= XP_COOLDOWN`. -/
def message_xp_eligible (now last_time : Int) : Bool :=
  decide (XP_COOLDOWN ≤ now - last_time)

/-- The XP-granting part of `on_reaction_add` (Bot.py lines 300-325): gate
the reactor under key `react_{user.id}`, record on grant, then gate the
message author under key `react_{author.id}` against the table as updated
by the reactor's grant.  Returns (reactor granted, author granted, table). -/
def on_reaction_add_model (table : CoolTable) (guild_id reactor_id author_id : Int)
    (author_bot : Bool) (now : Int) : Bool × Bool × CoolTable :=
  let afterReactor : Bool × CoolTable :=
    if REACTION_COOLDOWN ≤ now - table (guild_id, SubjectKey.react reactor_id) then
      (true, recordCooldown table (guild_id, SubjectKey.react reactor_id) now)
    else (false, table)
  if author_bot then (afterReactor.1, false, afterReactor.2)
  else if REACTION_COOLDOWN ≤ now - afterReactor.2 (guild_id, SubjectKey.react author_id) then
    (afterReactor.1, true, recordCooldown afterReactor.2 (guild_id, SubjectKey.react author_id) now)
  else (afterReactor.1, false, afterReactor.2)

/-- One atomic step of a concurrent XP grant.  `run_db` (Bot.py lines
69-73) holds `db_lock` only for the duration of a single database call, so
the units of atomicity in `add_xp` are its SELECT (`get_user_data`) and its
UPDATE (`update_user_data`); the Python computation between the two awaits
runs outside the lock and other tasks may interleave there. -/
inductive GStep
  | r1
  | w1
  | r2
  | w2
deriving DecidableEq, Repr

/-- The joint state of two in-flight `add_xp` calls against the same
(user, guild) row: the stored record and each task's local `data` dict
(absent until its SELECT has run). -/
structure CState where
  cell : Progress
  loc1 : Option Progress
  loc2 : Option Progress
deriving DecidableEq, Repr

/-- Execute one atomic step: a read copies the stored record into the
task's local state; a write stores the grant computed from the value the
task read earlier (and is a no-op if the task has not read yet). -/
def doStep (a b : Int) (s : CState) : GStep → CState
  | GStep.r1 => { s with loc1 := some s.cell }
  | GStep.r2 => { s with loc2 := some s.cell }
  | GStep.w1 =>
      match s.loc1 with
      | some p => { s with cell := (add_xp_pure p a).1 }
      | none => s
  | GStep.w2 =>
      match s.loc2 with
      | some p => { s with cell := (add_xp_pure p b).1 }
      | none => s

/-- Run a schedule of atomic steps for two concurrent grants of `a` and `b`
starting from the stored record `init`. -/
def runSched (a b : Int) (init : Progress) (sched : List GStep) : CState :=
  sched.foldl (doStep a b) ⟨init, none, none⟩

/-- A schedule is an interleaving of the two grants permitted by the
per-call lock: each task performs its read exactly once and its write
exactly once, and reads before it writes. -/
def validSched (sched : List GStep) : Bool :=
  (sched.count GStep.r1 == 1) && (sched.count GStep.w1 == 1) &&
  (sched.count GStep.r2 == 1) && (sched.count GStep.w2 == 1) &&
  decide (sched.indexOf GStep.r1 < sched.indexOf GStep.w1) &&
  decide (sched.indexOf GStep.r2 < sched.indexOf GStep.w2)

/-- Unfolding equation of `rollover` when the loop condition holds. -/
theorem rollover_step (xp level : Int) (b : Bool) (h : xp_for_next_level level ≤ xp) :
    rollover xp level b = rollover (xp - xp_for_next_level level) (level + 1) true := by
  conv_lhs => rw [rollover.eq_def]
  rw [dif_pos h]

/-- Unfolding equation of `rollover` when the loop condition fails. -/
theorem rollover_base (xp level : Int) (b : Bool) (h : ¬ xp_for_next_level level ≤ xp) :
    rollover xp level b = (xp, level, b) := by
  conv_lhs => rw [rollover.eq_def]
  rw [dif_neg h]

/-- The rollover loop runs to convergence: on exit the xp is strictly below
the threshold of the reached level. -/
theorem rollover_lt (xp level : Int) (b : Bool) :
    (rollover xp level b).1 < xp_for_next_level (rollover xp level b).2.1 := by
  induction xp, level, b using rollover.induct with
  | case1 xp level b h ih =>
      rw [rollover_step xp level b h]
      exact ih
  | case2 xp level b h =>
      rw [rollover_base xp level b h]
      exact lt_of_not_le h

/-- The xp and level computed by the rollover loop do not depend on the
incoming value of the `leveled_up` flag. -/
theorem rollover_flag (xp level : Int) (b b' : Bool) :
    (rollover xp level b).1 = (rollover xp level b').1
    ∧ (rollover xp level b).2.1 = (rollover xp level b').2.1 := by
  by_cases h : xp_for_next_level level ≤ xp
  · rw [rollover_step xp level b h, rollover_step xp level b' h]
    exact ⟨rfl, rfl⟩
  · rw [rollover_base xp level b h, rollover_base xp level b' h]
    exact ⟨rfl, rfl⟩

/-- Adding a further non-negative amount before running the loop is the
same as running the loop first and then rolling the extra amount over from
the reached state: every loop step taken from `xp` is also taken from
`xp + c`. -/
theorem rollover_add (xp level : Int) (b : Bool) (c : Int) (hc : 0 ≤ c) :
    rollover (xp + c) level b
      = rollover ((rollover xp level b).1 + c) (rollover xp level b).2.1
          (rollover xp level b).2.2 := by
  induction xp, level, b using rollover.induct with
  | case1 xp level b h ih =>
      have h' : xp_for_next_level level ≤ xp + c := le_trans h (by omega)
      rw [rollover_step xp level b h, ← ih]
      rw [rollover_step (xp + c) level b h']
      have e : xp + c - xp_for_next_level level = xp - xp_for_next_level level + c := by
        ring
      rw [e]
  | case2 xp level b h =>
      rw [rollover_base xp level b h]

/-- C7: with the 60-second message cooldown and the last recorded grant at
t=0, the eligibility check of `on_message` returns false at now=59 and true
at now=60 — the boundary instant now − last = duration is eligible. -/
theorem message_cooldown_boundary :
    message_xp_eligible 59 0 = false ∧ message_xp_eligible 60 0 = true := by
  decide

/-- C8: for every starting progress and every amount, `remove_user_xp`'s
computation returns xp ≥ 0 (the subtraction is clamped at 0) and exactly the
starting level. -/
theorem remove_user_xp_nonneg_keeps_level (data : Progress) (amount : Int) :
    0 ≤ (remove_user_xp_pure data amount).xp
    ∧ (remove_user_xp_pure data amount).level = data.level :=
  ⟨le_max_left 0 _, rfl⟩

/-- C9: on the records (level=3,xp=50), (level=3,xp=90), (level=5,xp=0) the
leaderboard query orders by level descending then xp descending, returning
[level5/xp0, level3/xp90, level3/xp50], and the top-user query returns the
level-5 user. -/
theorem leaderboard_order_example :
    leaderboard_query [⟨1, 50, 3⟩, ⟨2, 90, 3⟩, ⟨3, 0, 5⟩]
        = [⟨3, 0, 5⟩, ⟨2, 90, 3⟩, ⟨1, 50, 3⟩]
    ∧ get_top_user_id [⟨1, 50, 3⟩, ⟨2, 90, 3⟩, ⟨3, 0, 5⟩] = some 3 := by
  decide

/-- C1: the `!removexp` command does not apply the clamped reduce — on a
stored record {xp:50, level:2} with amount 10 it deletes the row outright
(`reset_user_xp`), while the unused helper `remove_user_xp` would have kept
the row as {xp:40, level:2}. -/
theorem removexp_deletes_record :
    removexp_command (fun k => if k = (7, 9) then some ⟨50, 2⟩ else none) 7 9 10 (7, 9)
        = none
    ∧ (remove_user_xp (fun k => if k = (7, 9) then some ⟨50, 2⟩ else none) 7 9 10).1 (7, 9)
        = some ⟨40, 2⟩ := by
  decide

/-- C2 counterexample: on the event path `add_xp`, starting from
{xp:0, level:1} with the non-negative amount 350, the single rollover check
leaves {xp:250, level:2} with 250 ≥ threshold(2) = 200 — the result does not
satisfy xp < threshold(level). -/
theorem add_xp_overflow_counterexample :
    (0:Int) ≤ 350
    ∧ (add_xp_pure ⟨0, 1⟩ 350).1 = ⟨250, 2⟩
    ∧ xp_for_next_level (add_xp_pure ⟨0, 1⟩ 350).1.level ≤ (add_xp_pure ⟨0, 1⟩ 350).1.xp := by
  decide

/-- C2 amended: the admin path `add_xp_manual` rolls over to convergence for
every starting progress and every amount; the event path `add_xp` applies at
most one rollover step, so its result satisfies xp < threshold(level) when
the starting progress does and the amount is at most one threshold. -/
theorem grant_convergence :
    (∀ (p : Progress) (amount : Int),
        (add_xp_manual_pure p amount).1.xp
          < xp_for_next_level (add_xp_manual_pure p amount).1.level)
    ∧ (∀ (p : Progress) (amount : Int),
        p.xp < xp_for_next_level p.level → 0 ≤ amount →
        amount ≤ xp_for_next_level p.level →
        (add_xp_pure p amount).1.xp
          < xp_for_next_level (add_xp_pure p amount).1.level) := by
  constructor
  · intro p amount
    exact rollover_lt (p.xp + amount) p.level false
  · intro p amount h1 h2 h3
    unfold add_xp_pure
    by_cases h : xp_for_next_level p.level ≤ p.xp + amount
    · rw [if_pos h]
      show p.xp + amount - xp_for_next_level p.level < xp_for_next_level (p.level + 1)
      simp only [xp_for_next_level, LEVEL_MULTIPLIER] at h1 h3 ⊢
      omega
    · rw [if_neg h]
      exact lt_of_not_le h

/-- C2 witness: the amended statement at {xp:0, level:1} with amount 350 on
the admin path, and at {xp:95, level:1} with amount 20 on the event path. -/
theorem grant_convergence_witness :
    ((add_xp_manual_pure ⟨0, 1⟩ 350).1.xp
        < xp_for_next_level (add_xp_manual_pure ⟨0, 1⟩ 350).1.level)
    ∧ ((95:Int) < xp_for_next_level 1 ∧ (0:Int) ≤ 20 ∧ (20:Int) ≤ xp_for_next_level 1
        ∧ (add_xp_pure ⟨95, 1⟩ 20).1.xp
            < xp_for_next_level (add_xp_pure ⟨95, 1⟩ 20).1.level) :=
  ⟨grant_convergence.1 ⟨0, 1⟩ 350,
   by decide, by decide, by decide,
   grant_convergence.2 ⟨95, 1⟩ 20 (by decide) (by decide) (by decide)⟩

/-- C5 counterexample: on the event path `add_xp`, splitting the total 300
into 150 + 150 from {xp:0, level:1} gives {xp:0, level:3}, while a single
grant of 300 gives {xp:250, level:2} — the two differ. -/
theorem add_xp_split_counterexample :
    (0:Int) < 150 ∧ (0:Int) < 150 ∧ (150:Int) + 150 = 300
    ∧ (add_xp_pure (add_xp_pure ⟨0, 1⟩ 150).1 150).1 ≠ (add_xp_pure ⟨0, 1⟩ 300).1 := by
  decide

/-- C5 amended: the full-rollover grant `add_xp_manual` is split-additive —
for every starting progress and every split of a total T into two positive
parts a and b, granting a then b ends at the same xp and level as granting T
once. -/
theorem add_xp_manual_split (p : Progress) (a b T : Int)
    (ha : 0 < a) (hb : 0 < b) (hT : a + b = T) :
    (add_xp_manual_pure (add_xp_manual_pure p a).1 b).1 = (add_xp_manual_pure p T).1 := by
  subst hT
  have key := rollover_add (p.xp + a) p.level false b (le_of_lt hb)
  have e : p.xp + (a + b) = p.xp + a + b := by ring
  have flag := rollover_flag ((rollover (p.xp + a) p.level false).1 + b)
      (rollover (p.xp + a) p.level false).2.1 false (rollover (p.xp + a) p.level false).2.2
  show (⟨(rollover ((rollover (p.xp + a) p.level false).1 + b)
            (rollover (p.xp + a) p.level false).2.1 false).1,
        (rollover ((rollover (p.xp + a) p.level false).1 + b)
            (rollover (p.xp + a) p.level false).2.1 false).2.1⟩ : Progress)
      = ⟨(rollover (p.xp + (a + b)) p.level false).1,
         (rollover (p.xp + (a + b)) p.level false).2.1⟩
  rw [e, key, flag.1, flag.2]

/-- C5 witness: the split 150 + 150 = 300 from {xp:0, level:1} on the admin
path. -/
theorem add_xp_manual_split_witness :
    (0:Int) < 150 ∧ (0:Int) < 150 ∧ (150:Int) + 150 = 300
    ∧ (add_xp_manual_pure (add_xp_manual_pure ⟨0, 1⟩ 150).1 150).1
        = (add_xp_manual_pure ⟨0, 1⟩ 300).1 :=
  ⟨by decide, by decide, by decide,
   add_xp_manual_split ⟨0, 1⟩ 150 150 300 (by decide) (by decide) (by decide)⟩

/-- C10: the `!addxp` admin command performs no amount ≥ 0 check — for a
stored record within its level threshold and any negative amount, the
rollover loop of `add_xp_manual` does not run, and the stored record becomes
{xp + amount, level}: the xp drops by |amount| with the level unchanged, so
the stored xp goes negative whenever |amount| exceeds the xp. -/
theorem addxp_negative_amount_unchecked (s : Store) (u g amount : Int) (p : Progress)
    (hs : s (u, g) = some p) (hinv : p.xp < xp_for_next_level p.level)
    (hneg : amount < 0) :
    (addxp_command s u g amount).1 (u, g) = some ⟨p.xp + amount, p.level⟩
    ∧ (addxp_command s u g amount).2.1 = false := by
  have hbase : rollover (p.xp + amount) p.level false = (p.xp + amount, p.level, false) := by
    apply rollover_base
    omega
  have hget : get_user_data s u g = (p, s) := by
    unfold get_user_data
    rw [hs]
  constructor
  · show update_user_data (get_user_data s u g).2 u g
        (add_xp_manual_pure (get_user_data s u g).1 amount).1.xp
        (add_xp_manual_pure (get_user_data s u g).1 amount).1.level (u, g)
      = some ⟨p.xp + amount, p.level⟩
    rw [hget]
    show update_user_data s u g (rollover (p.xp + amount) p.level false).1
        (rollover (p.xp + amount) p.level false).2.1 (u, g) = some ⟨p.xp + amount, p.level⟩
    rw [hbase]
    unfold update_user_data
    rw [if_pos rfl, hs]
  · show (add_xp_manual_pure (get_user_data s u g).1 amount).2 = false
    rw [hget]
    show (rollover (p.xp + amount) p.level false).2.2 = false
    rw [hbase]

/-- C10 witness: on a store holding {xp:0, level:1} for user 7 in guild 9,
adding −50 stores {xp:−50, level:1} — a negative stored xp. -/
theorem addxp_negative_amount_unchecked_witness :
    ((fun k => if k = ((7:Int), (9:Int)) then some (⟨0, 1⟩ : Progress) else none) (7, 9)
        = some (⟨0, 1⟩ : Progress))
    ∧ ((0:Int) < xp_for_next_level 1) ∧ ((-50:Int) < 0)
    ∧ ((addxp_command (fun k => if k = (7, 9) then some ⟨0, 1⟩ else none) 7 9 (-50)).1 (7, 9)
        = some ⟨0 + (-50), 1⟩)
    ∧ ((0:Int) + (-50) < 0) :=
  ⟨by decide, by decide, by decide,
   (addxp_negative_amount_unchecked (fun k => if k = (7, 9) then some ⟨0, 1⟩ else none)
      7 9 (-50) ⟨0, 1⟩ rfl (by decide) (by decide)).1,
   by decide⟩

/-- C4 counterexample: with an empty cooldown table at now=100, a user who
is both the reactor and the message author is granted as reactor but then
found ineligible as author — the reactor grant was recorded under the very
key the author check reads (`react_{id}` in both roles).  The same author
under a different reactor is granted, showing the blocking comes from the
shared key. -/
theorem reaction_shared_key_counterexample :
    (on_reaction_add_model (fun _ => 0) 5 1 1 false 100).1 = true
    ∧ (on_reaction_add_model (fun _ => 0) 5 1 1 false 100).2.1 = false
    ∧ (on_reaction_add_model (fun _ => 0) 5 2 1 false 100).2.1 = true := by
  decide

/-- C4 amended: reactor and author share the single `react_{id}` cooldown
key, so a user's reactor grant blocks that same user's author grant within
the window; for two distinct users the author's decision is exactly the
cooldown test against the author's own entry, unaffected by the reactor's
recording. -/
theorem reaction_author_gate_independent (table : CoolTable)
    (guild_id reactor_id author_id now : Int) (h : reactor_id ≠ author_id) :
    ((on_reaction_add_model table guild_id reactor_id author_id false now).2.1 = true
      ↔ REACTION_COOLDOWN ≤ now - table (guild_id, SubjectKey.react author_id)) := by
  have hkey : ((guild_id, SubjectKey.react author_id) : Int × SubjectKey)
      ≠ (guild_id, SubjectKey.react reactor_id) := by
    intro he
    have : author_id = reactor_id := by simpa using he
    exact h this.symm
  unfold on_reaction_add_model recordCooldown
  by_cases hr : REACTION_COOLDOWN ≤ now - table (guild_id, SubjectKey.react reactor_id)
  · simp only [if_pos hr, Bool.false_eq_true, if_false, if_neg hkey]
    by_cases ha : REACTION_COOLDOWN ≤ now - table (guild_id, SubjectKey.react author_id)
    · simp [ha]
    · simp [ha]
  · simp only [if_neg hr, Bool.false_eq_true, if_false]
    by_cases ha : REACTION_COOLDOWN ≤ now - table (guild_id, SubjectKey.react author_id)
    · simp [ha]
    · simp [ha]

/-- C4 witness: users 1 (reactor) and 2 (author) on the empty table at
now=100 — the author's gate equals the plain cooldown test on the author's
own entry. -/
theorem reaction_author_gate_independent_witness :
    ((1:Int) ≠ 2)
    ∧ ((on_reaction_add_model (fun _ => 0) 5 1 2 false 100).2.1 = true
        ↔ REACTION_COOLDOWN ≤ (100:Int)
            - (fun (_ : Int × SubjectKey) => (0:Int)) (5, SubjectKey.react 2)) :=
  ⟨by decide, reaction_author_gate_independent (fun _ => 0) 5 1 2 100 (by decide)⟩

/-- C3 counterexample: the schedule read₁ read₂ write₁ write₂ is a valid
interleaving under the per-call lock of `run_db` (each read precedes its own
write), yet running it for grants of 5 and 7 from {xp:0, level:1} stores
{xp:7, level:1}, which equals neither sequential order (both give
{xp:12, level:1}) — the first grant is lost. -/
theorem lost_update_counterexample :
    validSched [GStep.r1, GStep.r2, GStep.w1, GStep.w2] = true
    ∧ ¬ ((runSched 5 7 ⟨0, 1⟩ [GStep.r1, GStep.r2, GStep.w1, GStep.w2]).cell
          = (add_xp_pure (add_xp_pure ⟨0, 1⟩ 5).1 7).1
        ∨ (runSched 5 7 ⟨0, 1⟩ [GStep.r1, GStep.r2, GStep.w1, GStep.w2]).cell
          = (add_xp_pure (add_xp_pure ⟨0, 1⟩ 7).1 5).1) := by
  decide

/-- C3 amended: `db_lock` serializes only individual store calls, not the
whole read-compute-write of a grant, so lost updates are possible — there is
a valid interleaving of two concurrent grants to the same key whose final
stored record differs from the sequential application of the grants in
either order. -/
theorem lost_update_exists :
    ∃ sched : List GStep, validSched sched = true
      ∧ (runSched 5 7 ⟨0, 1⟩ sched).cell ≠ (add_xp_pure (add_xp_pure ⟨0, 1⟩ 5).1 7).1
      ∧ (runSched 5 7 ⟨0, 1⟩ sched).cell ≠ (add_xp_pure (add_xp_pure ⟨0, 1⟩ 7).1 5).1 :=
  ⟨[GStep.r1, GStep.r2, GStep.w1, GStep.w2], by decide⟩

/-- C6: with no intervening change to the store or to the guild's roles and
members, a second `check_top_user_change` call detects the same leader as
the cached one and short-circuits before any role mutation: it issues no
role actions and leaves the cache unchanged, so all role mutation across
the two calls happens in the first call alone. -/
theorem check_top_user_change_idempotent (env : TopEnv) (cache : Option Int) :
    (check_top_user_change env (check_top_user_change env cache).1).2 = []
    ∧ (check_top_user_change env (check_top_user_change env cache).1).1
        = (check_top_user_change env cache).1 := by
  cases htop : get_top_user_id env.records with
  | none =>
      have h1 : check_top_user_change env cache = (cache, []) := by
        unfold check_top_user_change
        rw [htop]
      rw [h1]
      show (check_top_user_change env cache).2 = []
        ∧ (check_top_user_change env cache).1 = cache
      rw [h1]
      exact ⟨rfl, rfl⟩
  | some t =>
      by_cases ht0 : t = 0
      · have h1 : check_top_user_change env cache = (cache, []) := by
          unfold check_top_user_change
          rw [htop]
          simp [ht0]
        rw [h1]
        show (check_top_user_change env cache).2 = []
          ∧ (check_top_user_change env cache).1 = cache
        rw [h1]
        exact ⟨rfl, rfl⟩
      · by_cases hc : cache = some t
        · have h1 : check_top_user_change env cache = (cache, []) := by
            unfold check_top_user_change
            rw [htop]
            simp [ht0, hc]
          rw [h1]
          show (check_top_user_change env cache).2 = []
            ∧ (check_top_user_change env cache).1 = cache
          rw [h1]
          exact ⟨rfl, rfl⟩
        · have h1 : (check_top_user_change env cache).1 = some t := by
            unfold check_top_user_change
            rw [htop]
            simp only [if_neg ht0, if_neg hc]
            cases env.rewardRole with
            | none => rfl
            | some role_id =>
                by_cases hr0 : role_id = 0
                · simp [hr0]
                · by_cases hrp : env.rolePresent role_id = true
                  · simp [hr0, hrp]
                  · simp [hr0, hrp]
          have h2 : check_top_user_change env (some t) = (some t, []) := by
            unfold check_top_user_change
            rw [htop]
            simp [ht0]
          rw [h1, h2]
          exact ⟨rfl, rfl⟩
